import Mathlib

/-!
Verification of the receipt post-processing logic of the
layoutlmv3-cord-receipts repository.

The development shallowly embeds:

* the BIO-tag-to-entity decoder and output formatter that appear, duplicated,
  in `src/replicate_deployment/predict.py` (`Predictor.process_receipt`,
  lines 120-188) and `src/replicate_deployment/layoutlmv3/predict.py`
  (`Predictor.process_receipt`, lines 89-157) — namespaces `PredictMain`
  and `PredictOCR` below, one per file;
* the two early-return shape checks of the external-OCR predictor
  (`src/replicate_deployment/layoutlmv3/predict.py`, lines 36-51);
* the word/box estimator `extract_words_and_boxes` of `src/client.py`
  (lines 10-57).

Python string built-ins used by that code (`str.replace`, `str.startswith`,
`str.strip`, `str.join`) are modelled once, on top of `String.data`.
-/

/-- Python `str.replace(pat, rep)` worker on character lists: replace every
non-overlapping occurrence of `pat`, scanning left to right.  The fuel is the
length of the subject string; each step consumes one unit of fuel and at least
one character (for a non-empty `pat`), so the fuel never runs out on the
intended calls.  (Python's behaviour for an *empty* pattern — inserting `rep`
between all characters — is not reproduced; no call site uses an empty
pattern.) -/
def replaceFuel (pat rep : List Char) : Nat → List Char → List Char
  | _, [] => []
  | 0, s => s
  | n + 1, c :: rest =>
    if pat.isPrefixOf (c :: rest) then
      rep ++ replaceFuel pat rep n (List.drop (pat.length - 1) rest)
    else
      c :: replaceFuel pat rep n rest

/-- Python `s.replace(pat, rep)`. -/
def pyReplace (s pat rep : String) : String :=
  ⟨replaceFuel pat.data rep.data s.data.length s.data⟩

/-- Python `s.startswith(p)`. -/
def pyStartsWith (s p : String) : Bool :=
  p.data.isPrefixOf s.data

/-- Python `s.strip()` on character lists: drop leading and trailing
whitespace.  (Python strips a slightly larger whitespace class — `\v`, `\f`
and Unicode spaces — than `Char.isWhitespace`; no token produced by the
tokenizer contains those characters.) -/
def stripL (l : List Char) : List Char :=
  ((l.dropWhile Char.isWhitespace).reverse.dropWhile Char.isWhitespace).reverse

/-- Python `s.strip()`. -/
def pyStrip (s : String) : String :=
  ⟨stripL s.data⟩

/-- Python `sep.join(xs)` worker on character lists. -/
def joinL (sep : List Char) : List (List Char) → List Char
  | [] => []
  | [x] => x
  | x :: y :: xs => x ++ sep ++ joinL sep (y :: xs)

/-- Python `sep.join(xs)`. -/
def pyJoin (sep : String) (xs : List String) : String :=
  ⟨joinL sep.data (xs.map String.data)⟩

/-- State of the BIO grouping loop of `process_receipt`: the `entities`
dictionary (an insertion-ordered association list, as a Python dict is),
`current_entity` (`none` models Python `None`; when set it always holds a
full label string such as `"B-STORE"`), and `current_text`. -/
structure GroupState where
  entities : List (String × List String)
  currentEntity : Option String
  currentText : List String
deriving Repr, DecidableEq

/-- Result dictionary returned by `Predictor.process_receipt`. -/
structure ReceiptResult where
  entities : List (String × List String)
  formatted_text : String
  tokens : List String
  predictions : List String
deriving Repr, DecidableEq

namespace PredictMain

/-- Lookup in the insertion-ordered `entities` dictionary
(Python `entities[key]` / `key in entities`). -/
def lookupE : List (String × List String) → String → Option (List String)
  | [], _ => none
  | (k, vs) :: rest, key => if k = key then some vs else lookupE rest key

/-- Python `key in entities`. -/
def containsKey (es : List (String × List String)) (key : String) : Bool :=
  (lookupE es key).isSome

/-- Python
`if entity_type not in entities: entities[entity_type] = []` followed by
`entities[entity_type].append(v)`: a first insertion adds the key at the end
(dict insertion order), a later one appends to the existing list in place. -/
def addEntity : List (String × List String) → String → String →
    List (String × List String)
  | [], key, v => [(key, [v])]
  | (k, vs) :: rest, key, v =>
    if k = key then (k, vs ++ [v]) :: rest
    else (k, vs) :: addEntity rest key v

/-- Python `token in ["[CLS]", "[SEP]", "[PAD]"]`
(src/replicate_deployment/predict.py line 126). -/
def isStructural (token : String) : Bool :=
  token = "[CLS]" || token = "[SEP]" || token = "[PAD]"

/-- Python `token.replace("Ġ", " ").strip()`
(src/replicate_deployment/predict.py lines 138 and 143). -/
def cleanToken (token : String) : String :=
  pyStrip (pyReplace token "Ġ" " ")

/-- Python `current_entity.replace("B-", "").replace("I-", "")`
(src/replicate_deployment/predict.py lines 131, 148, 156): remove every
occurrence of `"B-"`, then every occurrence of `"I-"`. -/
def entityType (lab : String) : String :=
  pyReplace (pyReplace lab "B-" "") "I-" ""

/-- Python lines 130-133 / 147-151 / 155-158 of
src/replicate_deployment/predict.py: `if current_entity:` flush the joined
accumulated text into `entities` under `entity_type`. -/
def flushEntities (st : GroupState) : List (String × List String) :=
  match st.currentEntity with
  | none => st.entities
  | some ce => addEntity st.entities (entityType ce) (pyJoin " " st.currentText)

/-- One iteration of the
`for token, label in zip(tokens, predicted_labels):` loop of
src/replicate_deployment/predict.py, lines 125-152. -/
def stepGroup (st : GroupState) (token lab : String) : GroupState :=
  if isStructural token = true then st
  else if pyStartsWith lab "B-" = true then
    { entities := flushEntities st, currentEntity := some lab,
      currentText := [cleanToken token] }
  else if pyStartsWith lab "I-" = true ∧ st.currentEntity.isSome = true ∧
      pyReplace lab "I-" "" = pyReplace (st.currentEntity.getD "") "B-" "" then
    { st with currentText := st.currentText ++ [cleanToken token] }
  else
    { entities := flushEntities st, currentEntity := none, currentText := [] }

/-- Initial state: `entities = {}`, `current_entity = None`,
`current_text = []` (src/replicate_deployment/predict.py lines 121-123). -/
def initGroupState : GroupState :=
  { entities := [], currentEntity := none, currentText := [] }

/-- The grouping loop run over the whole `(token, label)` sequence. -/
def runGroup (pairs : List (String × String)) : GroupState :=
  pairs.foldl (fun st p => stepGroup st p.1 p.2) initGroupState

/-- The complete BIO grouping pass, including the final
`# Save last entity` flush (src/replicate_deployment/predict.py
lines 120-159). -/
def groupEntities (pairs : List (String × String)) :
    List (String × List String) :=
  flushEntities (runGroup pairs)

/-- Python `formatted_lines` construction, src/replicate_deployment/predict.py
lines 162-180: five sequential `if <TYPE> in entities:` blocks appending to the
list.  Python `entities[k][0]` is modelled totally with `List.headD`; every
value list the grouping pass stores is non-empty (proved below), so the
default is never consulted on reachable inputs. -/
def formatLines (es : List (String × List String)) : List String :=
  let lines : List String := []
  let lines := match lookupE es "STORE" with
    | some vs => lines ++ ["# " ++ vs.headD ""]
    | none => lines
  let lines := match lookupE es "DATE" with
    | some vs => lines ++ ["Date: " ++ vs.headD ""]
    | none => lines
  let lines := match lookupE es "ITEM" with
    | some vs => lines ++ ("\n## Items" :: vs.map (fun item => "- " ++ item))
    | none => lines
  let lines := match lookupE es "PRICE" with
    | some vs => lines ++ ("\n## Prices" :: vs.map (fun price => "- " ++ price))
    | none => lines
  let lines := match lookupE es "TOTAL" with
    | some vs => lines ++ ["\n## Total: " ++ vs.headD ""]
    | none => lines
  lines

/-- The fixed message of src/replicate_deployment/predict.py line 184. -/
def noEntitiesMsg : String := "No structured entities detected."

/-- Python
`"\n".join(formatted_lines) if formatted_lines else "No structured entities detected."`
(src/replicate_deployment/predict.py line 184). -/
def formattedText (es : List (String × List String)) : String :=
  if formatLines es = [] then noEntitiesMsg else pyJoin "\n" (formatLines es)

/-- Steps 9-10 of `Predictor.process_receipt`
(src/replicate_deployment/predict.py lines 120-188): the BIO grouping pass
plus formatting, as a function of the decoded tokens and predicted labels
(Python `zip` truncates to the shorter list, as `List.zip` does). -/
def processTokens (tokens predictedLabels : List String) : ReceiptResult :=
  let entities := groupEntities (tokens.zip predictedLabels)
  { entities := entities
    formatted_text := formattedText entities
    tokens := tokens.take 50
    predictions := predictedLabels.take 50 }

end PredictMain

namespace PredictOCR

/-- Lookup in the `entities` dictionary
(src/replicate_deployment/layoutlmv3/predict.py copy). -/
def lookupE : List (String × List String) → String → Option (List String)
  | [], _ => none
  | (k, vs) :: rest, key => if k = key then some vs else lookupE rest key

/-- Python `key in entities`
(src/replicate_deployment/layoutlmv3/predict.py copy). -/
def containsKey (es : List (String × List String)) (key : String) : Bool :=
  (lookupE es key).isSome

/-- Dictionary insertion-or-append
(src/replicate_deployment/layoutlmv3/predict.py copy, lines 100-103 etc.). -/
def addEntity : List (String × List String) → String → String →
    List (String × List String)
  | [], key, v => [(key, [v])]
  | (k, vs) :: rest, key, v =>
    if k = key then (k, vs ++ [v]) :: rest
    else (k, vs) :: addEntity rest key v

/-- Python `token in ["[CLS]", "[SEP]", "[PAD]"]`
(src/replicate_deployment/layoutlmv3/predict.py line 95). -/
def isStructural (token : String) : Bool :=
  token = "[CLS]" || token = "[SEP]" || token = "[PAD]"

/-- Python `token.replace("Ġ", " ").strip()`
(src/replicate_deployment/layoutlmv3/predict.py lines 107 and 112). -/
def cleanToken (token : String) : String :=
  pyStrip (pyReplace token "Ġ" " ")

/-- Python `current_entity.replace("B-", "").replace("I-", "")`
(src/replicate_deployment/layoutlmv3/predict.py copy). -/
def entityType (lab : String) : String :=
  pyReplace (pyReplace lab "B-" "") "I-" ""

/-- Flush of the pending accumulator
(src/replicate_deployment/layoutlmv3/predict.py copy). -/
def flushEntities (st : GroupState) : List (String × List String) :=
  match st.currentEntity with
  | none => st.entities
  | some ce => addEntity st.entities (entityType ce) (pyJoin " " st.currentText)

/-- One iteration of the token/label loop
(src/replicate_deployment/layoutlmv3/predict.py lines 94-121). -/
def stepGroup (st : GroupState) (token lab : String) : GroupState :=
  if isStructural token = true then st
  else if pyStartsWith lab "B-" = true then
    { entities := flushEntities st, currentEntity := some lab,
      currentText := [cleanToken token] }
  else if pyStartsWith lab "I-" = true ∧ st.currentEntity.isSome = true ∧
      pyReplace lab "I-" "" = pyReplace (st.currentEntity.getD "") "B-" "" then
    { st with currentText := st.currentText ++ [cleanToken token] }
  else
    { entities := flushEntities st, currentEntity := none, currentText := [] }

/-- Initial loop state
(src/replicate_deployment/layoutlmv3/predict.py lines 90-92). -/
def initGroupState : GroupState :=
  { entities := [], currentEntity := none, currentText := [] }

/-- The grouping loop run over the whole sequence
(src/replicate_deployment/layoutlmv3/predict.py copy). -/
def runGroup (pairs : List (String × String)) : GroupState :=
  pairs.foldl (fun st p => stepGroup st p.1 p.2) initGroupState

/-- The complete BIO grouping pass, final flush included
(src/replicate_deployment/layoutlmv3/predict.py lines 89-128). -/
def groupEntities (pairs : List (String × String)) :
    List (String × List String) :=
  flushEntities (runGroup pairs)

/-- Python `formatted_lines` construction
(src/replicate_deployment/layoutlmv3/predict.py lines 131-149). -/
def formatLines (es : List (String × List String)) : List String :=
  let lines : List String := []
  let lines := match lookupE es "STORE" with
    | some vs => lines ++ ["# " ++ vs.headD ""]
    | none => lines
  let lines := match lookupE es "DATE" with
    | some vs => lines ++ ["Date: " ++ vs.headD ""]
    | none => lines
  let lines := match lookupE es "ITEM" with
    | some vs => lines ++ ("\n## Items" :: vs.map (fun item => "- " ++ item))
    | none => lines
  let lines := match lookupE es "PRICE" with
    | some vs => lines ++ ("\n## Prices" :: vs.map (fun price => "- " ++ price))
    | none => lines
  let lines := match lookupE es "TOTAL" with
    | some vs => lines ++ ["\n## Total: " ++ vs.headD ""]
    | none => lines
  lines

/-- The fixed message
(src/replicate_deployment/layoutlmv3/predict.py line 153). -/
def noEntitiesMsg : String := "No structured entities detected."

/-- Final `formatted_text` value
(src/replicate_deployment/layoutlmv3/predict.py line 153). -/
def formattedText (es : List (String × List String)) : String :=
  if formatLines es = [] then noEntitiesMsg else pyJoin "\n" (formatLines es)

/-- Grouping plus formatting as a function of tokens and predicted labels
(src/replicate_deployment/layoutlmv3/predict.py lines 89-157). -/
def processTokens (tokens predictedLabels : List String) : ReceiptResult :=
  let entities := groupEntities (tokens.zip predictedLabels)
  { entities := entities
    formatted_text := formattedText entities
    tokens := tokens.take 50
    predictions := predictedLabels.take 50 }

/-- The two early-return shape checks of `Predictor.process_receipt` in
src/replicate_deployment/layoutlmv3/predict.py, lines 36-51:
`if not words or not boxes:` returns the "No text provided." result, then
`if len(words) != len(boxes):` returns the count-mismatch result.  `none`
means both guards pass and the routine proceeds to tokenization and model
inference. -/
def processReceiptGuards (words : List String) (boxes : List (List Int)) :
    Option ReceiptResult :=
  if words.isEmpty || boxes.isEmpty then
    some { entities := [], formatted_text := "No text provided.",
           tokens := [], predictions := [] }
  else if words.length ≠ boxes.length then
    some { entities := []
           formatted_text := "Error: words (" ++ toString words.length ++
             ") and boxes (" ++ toString boxes.length ++ ") count mismatch."
           tokens := [], predictions := [] }
  else none

end PredictOCR

namespace Client

/-- Worker for Python `re.findall(r'\S+', text)`: scan the characters,
accumulating the current run of non-whitespace characters (in reverse) in
`acc`, and emit each maximal run. -/
def wordsAux : List Char → List Char → List (List Char)
  | acc, [] => if acc.isEmpty then [] else [acc.reverse]
  | acc, c :: rest =>
    if c.isWhitespace then
      if acc.isEmpty then wordsAux [] rest
      else acc.reverse :: wordsAux [] rest
    else wordsAux (c :: acc) rest

/-- Python `re.findall(r'\S+', text)` (src/client.py line 25): the maximal
runs of non-whitespace characters of `text`, in order. -/
def findallWords (text : String) : List String :=
  (wordsAux [] text.data).map (fun l => ⟨l⟩)

/-- Body of the `for i, word in enumerate(words)` loop of
`extract_words_and_boxes` (src/client.py lines 38-54): estimate a box for
word number `i` and clamp it into the image.  All quantities are
non-negative, so Nat faithfully models the Python ints (for
`image_width ≥ 1` the subtraction `image_width - 1` never underflows). -/
def estimateBox (image_width image_height char_width line_height
    words_per_line i : Nat) (word : String) : List Nat :=
  let line := i / words_per_line
  let pos_in_line := i % words_per_line
  let x0 := pos_in_line * char_width * (word.length + 1)
  let y0 := line * line_height
  let x1 := x0 + word.length * char_width
  let y1 := y0 + line_height
  let x0 := max 0 (min x0 (image_width - 1))
  let y0 := max 0 (min y0 (image_height - 1))
  let x1 := max (x0 + 1) (min x1 image_width)
  let y1 := max (y0 + 1) (min y1 image_height)
  [x0, y0, x1, y1]

/-- Python `extract_words_and_boxes` (src/client.py lines 10-57).
Python computes `words_per_line = max(1, int(len(words) ** 0.5))` through a
float; it is modelled with `Nat.sqrt`, which returns the same value for every
list length below `2 ^ 52`, and none of the theorems below depend on this
value beyond its positivity. -/
def extract_words_and_boxes (text : String) (image_width image_height : Nat) :
    List String × List (List Nat) :=
  let words := findallWords text
  if words.isEmpty then ([], [])
  else
    let words_per_line := max 1 (Nat.sqrt words.length)
    let num_lines := (words.length + words_per_line - 1) / words_per_line
    let line_height := image_height / max num_lines 1
    let char_width :=
      image_width / max ((words.map String.length).foldl max 0) 1
    let boxes := words.enum.map (fun p =>
      estimateBox image_width image_height char_width line_height
        words_per_line p.1 p.2)
    (words, boxes)

end Client

namespace PredictMain

/-- Invariant of the grouping loop: every entry of the `entities` mapping has
a non-empty value list and a key that is the `entityType` of the label of
some non-structural pair of `S` starting with `"B-"`. -/
def EntriesFromB (S : List (String × String))
    (es : List (String × List String)) : Prop :=
  ∀ q ∈ es, q.2 ≠ [] ∧ ∃ p ∈ S, isStructural p.1 = false ∧
    pyStartsWith p.2 "B-" = true ∧ entityType p.2 = q.1

/-- Invariant of the grouping loop: the open accumulator, when present, holds
the label of some non-structural pair of `S` starting with `"B-"`. -/
def AccFromB (S : List (String × String)) (o : Option String) : Prop :=
  ∀ ce, o = some ce → ∃ p ∈ S, isStructural p.1 = false ∧
    pyStartsWith p.2 "B-" = true ∧ p.2 = ce

end PredictMain

namespace PredictMain

theorem lookupE_addEntity_self (es : List (String × List String))
    (k : String) (v : String) :
    lookupE (addEntity es k v) k = some ((lookupE es k).getD [] ++ [v]) := by
  induction es with
  | nil => simp [addEntity, lookupE]
  | cons hd tl ih =>
    obtain ⟨k0, vs0⟩ := hd
    by_cases hk : k0 = k
    · subst hk
      simp [addEntity, lookupE]
    · simp [addEntity, lookupE, hk, ih]

theorem lookupE_addEntity_ne (es : List (String × List String))
    (k v : String) (k2 : String) (h : k2 ≠ k) :
    lookupE (addEntity es k v) k2 = lookupE es k2 := by
  induction es with
  | nil => simp [addEntity, lookupE, Ne.symm h]
  | cons hd tl ih =>
    obtain ⟨k0, vs0⟩ := hd
    by_cases hk : k0 = k
    · simp [addEntity, hk, lookupE, Ne.symm h]
    · by_cases hk2 : k0 = k2
      · subst hk2
        simp [addEntity, hk, lookupE]
      · simp [addEntity, hk, lookupE, hk2, ih]

theorem containsKey_addEntity_self (es : List (String × List String))
    (k v : String) :
    containsKey (addEntity es k v) k = true := by
  simp [containsKey, lookupE_addEntity_self]

theorem stepGroup_structural (st : GroupState) (token lab : String)
    (h : isStructural token = true) :
    stepGroup st token lab = st := by
  simp [stepGroup, h]

theorem stepGroup_B (st : GroupState) (token lab : String)
    (ht : isStructural token = false) (hB : pyStartsWith lab "B-" = true) :
    stepGroup st token lab =
      { entities := flushEntities st, currentEntity := some lab,
        currentText := [cleanToken token] } := by
  simp [stepGroup, ht, hB]

theorem mem_addEntity (k v : String) (q : String × List String) :
    ∀ es : List (String × List String), (∀ r ∈ es, r.2 ≠ []) →
      q ∈ addEntity es k v → q.2 ≠ [] ∧ (q.1 = k ∨ q ∈ es)
  | [], _, hq => by
    simp [addEntity] at hq
    subst hq
    simp
  | (k0, vs0) :: tl, hes, hq => by
    by_cases hk : k0 = k
    · simp only [addEntity, hk, if_pos, List.mem_cons] at hq
      rcases hq with hq | hq
      · subst hq
        exact ⟨by simp, Or.inl rfl⟩
      · exact ⟨hes q (List.mem_cons_of_mem _ hq),
          Or.inr (List.mem_cons_of_mem _ hq)⟩
    · simp only [addEntity, if_neg hk, List.mem_cons] at hq
      rcases hq with hq | hq
      · subst hq
        exact ⟨hes (k0, vs0) (List.mem_cons_self _ _),
          Or.inr (List.mem_cons_self _ _)⟩
      · rcases mem_addEntity k v q tl
          (fun r hr => hes r (List.mem_cons_of_mem _ hr)) hq with ⟨h1, h2 | h2⟩
        · exact ⟨h1, Or.inl h2⟩
        · exact ⟨h1, Or.inr (List.mem_cons_of_mem _ h2)⟩

end PredictMain

theorem pyStartsWith_I_not_B (s : String) (h : pyStartsWith s "I-" = true) :
    pyStartsWith s "B-" = false := by
  obtain ⟨data⟩ := s
  have hI : pyStartsWith ⟨data⟩ "I-" = List.isPrefixOf ['I', '-'] data := rfl
  have hB : pyStartsWith ⟨data⟩ "B-" = List.isPrefixOf ['B', '-'] data := rfl
  rw [hI] at h
  rw [hB]
  cases data with
  | nil => simp [List.isPrefixOf] at h
  | cons c rest =>
    simp only [List.isPrefixOf, Bool.and_eq_true, beq_iff_eq] at h
    obtain ⟨hc, -⟩ := h
    subst hc
    simp [List.isPrefixOf]

/-- C4 names the structural start/end/padding markers of the tokenizer in
use, which is `RobertaTokenizer` (byte-level BPE, hence the `"Ġ"` cleanup in
the same loop): those markers are `"<s>"`, `"</s>"` and `"<pad>"`.  The code
skips only the hardcoded BERT-style strings `"[CLS]"`/`"[SEP]"`/`"[PAD]"`,
which this tokenizer never emits, so the real markers — including the
`"<pad>"` tokens produced by `padding="max_length"` — are processed as
ordinary tokens and do transition the accumulator.  At the failing input
below, the `("<s>", "O")` pair breaks the entity in two states: with it the
result is `{"T": ["x"]}`, with it removed `{"T": ["x y"]}`, so removing
marker pairs is not invariant as the claim (and the spec's "skip structural
tokens" intent) requires. -/
theorem C4_marker_not_skipped :
    PredictMain.isStructural "<s>" = false ∧
      PredictMain.isStructural "</s>" = false ∧
      PredictMain.isStructural "<pad>" = false ∧
      PredictMain.groupEntities [("x", "B-T"), ("<s>", "O"), ("y", "I-T")] =
        [("T", ["x"])] ∧
      PredictMain.groupEntities [("x", "B-T"), ("y", "I-T")] =
        [("T", ["x y"])] ∧
      PredictMain.groupEntities [("x", "B-T"), ("<s>", "O"), ("y", "I-T")] ≠
        PredictMain.groupEntities [("x", "B-T"), ("y", "I-T")] :=
  ⟨by decide, by decide, by decide, by decide, by decide, by decide⟩

/-- C6: with non-empty `words` and `boxes` of different lengths,
`process_receipt` (external-OCR predictor) returns, before any inference,
a result with empty entities, empty token and prediction lists and a
formatted text reporting the count mismatch. -/
theorem C6_mismatch_guard (words : List String) (boxes : List (List Int))
    (hw : words ≠ []) (hb : boxes ≠ []) (hne : words.length ≠ boxes.length) :
    PredictOCR.processReceiptGuards words boxes =
      some { entities := []
             formatted_text := "Error: words (" ++ toString words.length ++
               ") and boxes (" ++ toString boxes.length ++ ") count mismatch."
             tokens := [], predictions := [] } := by
  have h1 : words.isEmpty = false := by
    cases words <;> simp_all
  have h2 : boxes.isEmpty = false := by
    cases boxes <;> simp_all
  simp [PredictOCR.processReceiptGuards, h1, h2, hne]

/-- Witness for C6 at `words = ["a"]`, `boxes` of length two. -/
theorem C6_mismatch_guard_witness :
    (["a"] : List String) ≠ [] ∧
      ([[0, 0, 1, 1], [0, 0, 1, 1]] : List (List Int)) ≠ [] ∧
      (["a"] : List String).length ≠
        ([[0, 0, 1, 1], [0, 0, 1, 1]] : List (List Int)).length ∧
      PredictOCR.processReceiptGuards ["a"] [[0, 0, 1, 1], [0, 0, 1, 1]] =
        some { entities := []
               formatted_text :=
                 "Error: words (1) and boxes (2) count mismatch."
               tokens := [], predictions := [] } :=
  ⟨by decide, by decide, by decide,
    C6_mismatch_guard ["a"] [[0, 0, 1, 1], [0, 0, 1, 1]]
      (by decide) (by decide) (by decide)⟩

/-- C10: empty `words` or empty `boxes` hits the first guard of
`process_receipt` (external-OCR predictor), which returns the
"No text provided." result before the length-mismatch check. -/
theorem C10_no_text_guard (words : List String) (boxes : List (List Int))
    (h : words = [] ∨ boxes = []) :
    PredictOCR.processReceiptGuards words boxes =
      some { entities := [], formatted_text := "No text provided.",
             tokens := [], predictions := [] } := by
  rcases h with h | h <;> subst h <;>
    simp [PredictOCR.processReceiptGuards]

/-- Witness for C10: empty words with one box gives the no-text message,
not the mismatch error, although the lengths differ. -/
theorem C10_no_text_guard_witness :
    (([] : List String) = [] ∨ ([[0, 0, 1, 1]] : List (List Int)) = []) ∧
      PredictOCR.processReceiptGuards [] [[0, 0, 1, 1]] =
        some { entities := [], formatted_text := "No text provided.",
               tokens := [], predictions := [] } :=
  ⟨Or.inl rfl, C10_no_text_guard [] [[0, 0, 1, 1]] (Or.inl rfl)⟩

theorem ocr_addEntity_eq (k v : String) :
    ∀ es, PredictOCR.addEntity es k v = PredictMain.addEntity es k v
  | [] => rfl
  | (k0, vs0) :: tl => by
    by_cases hk : k0 = k <;>
      simp [PredictMain.addEntity, PredictOCR.addEntity, hk,
        ocr_addEntity_eq k v tl]

theorem ocr_lookupE_eq (key : String) :
    ∀ es, PredictOCR.lookupE es key = PredictMain.lookupE es key
  | [] => rfl
  | (k0, vs0) :: tl => by
    by_cases hk : k0 = key <;>
      simp [PredictMain.lookupE, PredictOCR.lookupE, hk, ocr_lookupE_eq key tl]

theorem ocr_flushEntities_eq (st : GroupState) :
    PredictOCR.flushEntities st = PredictMain.flushEntities st := by
  cases h : st.currentEntity <;>
    simp [PredictMain.flushEntities, PredictOCR.flushEntities, h,
      PredictMain.entityType, PredictOCR.entityType, ocr_addEntity_eq]

theorem ocr_stepGroup_eq (st : GroupState) (tok lab : String) :
    PredictOCR.stepGroup st tok lab = PredictMain.stepGroup st tok lab := by
  simp only [PredictMain.stepGroup, PredictOCR.stepGroup,
    PredictMain.isStructural, PredictOCR.isStructural,
    PredictMain.cleanToken, PredictOCR.cleanToken, ocr_flushEntities_eq]

theorem ocr_groupEntities_eq (pairs : List (String × String)) :
    PredictOCR.groupEntities pairs = PredictMain.groupEntities pairs := by
  have hfold : ∀ (l : List (String × String)) (st : GroupState),
      l.foldl (fun st p => PredictOCR.stepGroup st p.1 p.2) st =
        l.foldl (fun st p => PredictMain.stepGroup st p.1 p.2) st := by
    intro l st
    simp only [ocr_stepGroup_eq]
  unfold PredictOCR.groupEntities PredictMain.groupEntities
    PredictOCR.runGroup PredictMain.runGroup
  rw [show PredictOCR.initGroupState = PredictMain.initGroupState from rfl]
  rw [hfold]
  exact ocr_flushEntities_eq _

theorem ocr_formatLines_eq (es : List (String × List String)) :
    PredictOCR.formatLines es = PredictMain.formatLines es := by
  simp only [PredictMain.formatLines, PredictOCR.formatLines, ocr_lookupE_eq]

theorem ocr_formattedText_eq (es : List (String × List String)) :
    PredictOCR.formattedText es = PredictMain.formattedText es := by
  simp only [PredictMain.formattedText, PredictOCR.formattedText,
    PredictMain.noEntitiesMsg, PredictOCR.noEntitiesMsg, ocr_formatLines_eq]

/-- C7: the BIO decoder plus formatter of
src/replicate_deployment/predict.py and the copy in
src/replicate_deployment/layoutlmv3/predict.py are extensionally equal: on
every token/label sequence they produce the same result, and in particular
the same entities mapping and the same formatted text. -/
theorem C7_duplicate_equivalence (tokens predictedLabels : List String) :
    PredictMain.processTokens tokens predictedLabels =
      PredictOCR.processTokens tokens predictedLabels ∧
    (PredictMain.processTokens tokens predictedLabels).entities =
      (PredictOCR.processTokens tokens predictedLabels).entities ∧
    (PredictMain.processTokens tokens predictedLabels).formatted_text =
      (PredictOCR.processTokens tokens predictedLabels).formatted_text := by
  have h : PredictMain.processTokens tokens predictedLabels =
      PredictOCR.processTokens tokens predictedLabels := by
    simp only [PredictMain.processTokens, PredictOCR.processTokens,
      ocr_groupEntities_eq, ocr_formattedText_eq]
  exact ⟨h, by rw [h], by rw [h]⟩

/-- C1 fails as stated: the code computes the flush key with
`current_entity.replace("B-", "").replace("I-", "")`, which removes every
occurrence of the markers, not only the prefix, and cleans the token with
`token.replace("Ġ", " ")`, which turns every `"Ġ"` into a space rather than
stripping a leading one.  On the label `"B-I-T"` the claim's prefix-stripped
type is `"I-T"` but the code files the entity under `"T"`, and on the token
`"aĠb"` the claim's cleaning gives `"aĠb"` but the code stores `"a b"`. -/
theorem C1_counterexample :
    PredictMain.groupEntities [("x", "B-I-T"), ("aĠb", "B-U")] =
      [("T", ["x"]), ("U", ["a b"])] ∧
    PredictMain.groupEntities [("x", "B-I-T"), ("aĠb", "B-U")] ≠
      [("I-T", ["x"]), ("U", ["aĠb"])] :=
  ⟨by decide, by decide⟩

/-- C1 (amended): at a non-structural position whose label starts with
`"B-"`, the step (i) flushes any open accumulator — the accumulated texts are
joined with single spaces and appended to the ordered list of the key
obtained from the accumulator label by removing every occurrence of `"B-"`
and then every occurrence of `"I-"` (which is the prefix-stripped type
whenever the remainder contains no further marker), lists of other keys
staying unchanged — and (ii) starts a new accumulator holding the new label,
whose single text element is the token with every `"Ġ"` replaced by a space
and surrounding whitespace stripped. -/
theorem C1_amended_flush_on_B (st : GroupState) (token lab : String)
    (ht : PredictMain.isStructural token = false)
    (hB : pyStartsWith lab "B-" = true) :
    PredictMain.stepGroup st token lab =
      { entities := PredictMain.flushEntities st, currentEntity := some lab,
        currentText := [PredictMain.cleanToken token] } ∧
    (∀ ce, st.currentEntity = some ce →
      PredictMain.flushEntities st =
        PredictMain.addEntity st.entities (PredictMain.entityType ce)
          (pyJoin " " st.currentText)) ∧
    (∀ es k v, PredictMain.lookupE (PredictMain.addEntity es k v) k =
        some ((PredictMain.lookupE es k).getD [] ++ [v]) ∧
      ∀ k2, k2 ≠ k →
        PredictMain.lookupE (PredictMain.addEntity es k v) k2 =
          PredictMain.lookupE es k2) := by
  refine ⟨PredictMain.stepGroup_B st token lab ht hB, ?_, ?_⟩
  · intro ce hce
    simp [PredictMain.flushEntities, hce]
  · intro es k v
    exact ⟨PredictMain.lookupE_addEntity_self es k v,
      fun k2 h2 => PredictMain.lookupE_addEntity_ne es k v k2 h2⟩

/-- Witness for the amended C1 at a concrete state and pair. -/
theorem C1_amended_flush_on_B_witness :
    PredictMain.isStructural "Ġy" = false ∧
      pyStartsWith "B-U" "B-" = true ∧
      (PredictMain.stepGroup ⟨[], some "B-T", ["x"]⟩ "Ġy" "B-U" =
        { entities := PredictMain.flushEntities ⟨[], some "B-T", ["x"]⟩,
          currentEntity := some "B-U",
          currentText := [PredictMain.cleanToken "Ġy"] } ∧
      (∀ ce, (some "B-T" : Option String) = some ce →
        PredictMain.flushEntities ⟨[], some "B-T", ["x"]⟩ =
          PredictMain.addEntity [] (PredictMain.entityType ce)
            (pyJoin " " ["x"])) ∧
      (∀ es k v, PredictMain.lookupE (PredictMain.addEntity es k v) k =
          some ((PredictMain.lookupE es k).getD [] ++ [v]) ∧
        ∀ k2, k2 ≠ k →
          PredictMain.lookupE (PredictMain.addEntity es k v) k2 =
            PredictMain.lookupE es k2)) :=
  ⟨by decide, by decide,
    C1_amended_flush_on_B ⟨[], some "B-T", ["x"]⟩ "Ġy" "B-U"
      (by decide) (by decide)⟩

/-- C2 fails as stated: the code's continuation test compares
`label.replace("I-", "")` with `current_entity.replace("B-", "")`, removing
every occurrence of the markers.  With the accumulator open on `"B-I-A"` and
the label `"I-I-A"`, both prefix-stripped types are `"I-A"`, so the claim
requires the token to be appended with the mapping untouched; the code
instead fails the test (it compares `"A"` with `"I-A"`), flushes the
accumulator into the mapping under `"A"`, and resets. -/
theorem C2_counterexample :
    PredictMain.stepGroup ⟨[], some "B-I-A", ["x"]⟩ "y" "I-I-A" =
      ⟨[("A", ["x"])], none, []⟩ ∧
    PredictMain.stepGroup ⟨[], some "B-I-A", ["x"]⟩ "y" "I-I-A" ≠
      ⟨[], some "B-I-A", ["x", "y"]⟩ :=
  ⟨by decide, by decide⟩

/-- C2 (amended): at a non-structural position whose label starts with
`"I-"`, when an accumulator is open and the label with every `"I-"` removed
equals the accumulator label with every `"B-"` removed, the token text with
every `"Ġ"` replaced by a space and surrounding whitespace stripped is
appended to the accumulator, and the entities mapping is not modified. -/
theorem C2_amended_continue_on_I (st : GroupState) (token lab ce : String)
    (ht : PredictMain.isStructural token = false)
    (hI : pyStartsWith lab "I-" = true)
    (hce : st.currentEntity = some ce)
    (hm : pyReplace lab "I-" "" = pyReplace ce "B-" "") :
    PredictMain.stepGroup st token lab =
      { st with currentText :=
          st.currentText ++ [PredictMain.cleanToken token] } ∧
    (PredictMain.stepGroup st token lab).entities = st.entities := by
  have hB := pyStartsWith_I_not_B lab hI
  have h1 : PredictMain.stepGroup st token lab =
      { st with currentText :=
          st.currentText ++ [PredictMain.cleanToken token] } := by
    simp [PredictMain.stepGroup, ht, hB, hI, hce, hm]
  exact ⟨h1, by rw [h1]⟩

/-- Witness for the amended C2 at a concrete state and pair. -/
theorem C2_amended_continue_on_I_witness :
    PredictMain.isStructural "llo" = false ∧
      pyStartsWith "I-T" "I-" = true ∧
      (GroupState.mk [] (some "B-T") ["He"]).currentEntity = some "B-T" ∧
      pyReplace "I-T" "I-" "" = pyReplace "B-T" "B-" "" ∧
      (PredictMain.stepGroup ⟨[], some "B-T", ["He"]⟩ "llo" "I-T" =
        { GroupState.mk [] (some "B-T") ["He"] with currentText :=
            ["He"] ++ [PredictMain.cleanToken "llo"] } ∧
      (PredictMain.stepGroup ⟨[], some "B-T", ["He"]⟩ "llo" "I-T").entities =
        []) :=
  ⟨by decide, by decide, by decide, by decide,
    C2_amended_continue_on_I ⟨[], some "B-T", ["He"]⟩ "llo" "I-T" "B-T"
      (by decide) (by decide) (by decide) (by decide)⟩

/-- C3 fails as stated: with the accumulator open on `"B-B-X"` and the label
`"I-X"`, the label's prefix-stripped type `"X"` differs from the
accumulator's prefix-stripped type `"B-X"`, so the claim places this position
in its "mismatched I-" class and requires a flush and reset; the code's
comparison removes every `"B-"` occurrence from the accumulator label,
obtaining `"X"` on both sides, and appends to the accumulator instead. -/
theorem C3_counterexample :
    PredictMain.stepGroup ⟨[], some "B-B-X", ["x"]⟩ "y" "I-X" =
      ⟨[], some "B-B-X", ["x", "y"]⟩ ∧
    PredictMain.stepGroup ⟨[], some "B-B-X", ["x"]⟩ "y" "I-X" ≠
      ⟨[("B-X", ["x"])], none, []⟩ :=
  ⟨by decide, by decide⟩

/-- C3 (amended): at a non-structural position whose label does not start
with `"B-"` and does not pass the code's continuation test (label starting
with `"I-"`, accumulator open, label with every `"I-"` removed equal to the
accumulator label with every `"B-"` removed), any pending accumulator is
flushed into the mapping and the accumulator is reset; and whenever the loop
ends with an open accumulator, the final flush files it, so its entity type
is a key of the final mapping. -/
theorem C3_amended_flush_reset (st : GroupState) (token lab : String)
    (ht : PredictMain.isStructural token = false)
    (hB : pyStartsWith lab "B-" = false)
    (hc : ¬(pyStartsWith lab "I-" = true ∧ st.currentEntity.isSome = true ∧
        pyReplace lab "I-" "" =
          pyReplace (st.currentEntity.getD "") "B-" "")) :
    PredictMain.stepGroup st token lab =
      { entities := PredictMain.flushEntities st, currentEntity := none,
        currentText := [] } ∧
    (∀ pairs ce, (PredictMain.runGroup pairs).currentEntity = some ce →
      PredictMain.containsKey (PredictMain.groupEntities pairs)
        (PredictMain.entityType ce) = true) := by
  constructor
  · simp [PredictMain.stepGroup, ht, hB, hc]
  · intro pairs ce hce
    simp only [PredictMain.groupEntities, PredictMain.flushEntities, hce]
    exact PredictMain.containsKey_addEntity_self _ _ _

/-- Witness for the amended C3 at a concrete state and pair. -/
theorem C3_amended_flush_reset_witness :
    PredictMain.isStructural "y" = false ∧
      pyStartsWith "O" "B-" = false ∧
      ¬(pyStartsWith "O" "I-" = true ∧
        (some "B-T" : Option String).isSome = true ∧
        pyReplace "O" "I-" "" =
          pyReplace ((some "B-T" : Option String).getD "") "B-" "") ∧
      (PredictMain.stepGroup ⟨[], some "B-T", ["x"]⟩ "y" "O" =
        { entities := PredictMain.flushEntities ⟨[], some "B-T", ["x"]⟩,
          currentEntity := none, currentText := [] } ∧
      (∀ pairs ce, (PredictMain.runGroup pairs).currentEntity = some ce →
        PredictMain.containsKey (PredictMain.groupEntities pairs)
          (PredictMain.entityType ce) = true)) :=
  ⟨by decide, by decide, by decide,
    C3_amended_flush_reset ⟨[], some "B-T", ["x"]⟩ "y" "O"
      (by decide) (by decide) (by decide)⟩

theorem flushEntities_pres (S : List (String × String))
    (es : List (String × List String)) (o : Option String)
    (txt : List String) (h1 : PredictMain.EntriesFromB S es)
    (h2 : PredictMain.AccFromB S o) :
    PredictMain.EntriesFromB S (PredictMain.flushEntities ⟨es, o, txt⟩) := by
  cases o with
  | none => exact h1
  | some ce =>
    intro q hq
    have hadd := PredictMain.mem_addEntity (PredictMain.entityType ce)
      (pyJoin " " txt) q es (fun r hr => (h1 r hr).1) hq
    rcases hadd with ⟨hne, hk | hk⟩
    · obtain ⟨p, hp, hp1, hp2, hp3⟩ := h2 ce rfl
      exact ⟨hne, p, hp, hp1, hp2, by rw [hp3, hk]⟩
    · exact h1 q hk

theorem stepGroup_pres (S : List (String × String)) (a : String × String)
    (haS : a ∈ S) (st : GroupState)
    (h1 : PredictMain.EntriesFromB S st.entities)
    (h2 : PredictMain.AccFromB S st.currentEntity) :
    PredictMain.EntriesFromB S (PredictMain.stepGroup st a.1 a.2).entities ∧
      PredictMain.AccFromB S (PredictMain.stepGroup st a.1 a.2).currentEntity := by
  by_cases ht : PredictMain.isStructural a.1 = true
  · rw [PredictMain.stepGroup_structural _ _ _ ht]
    exact ⟨h1, h2⟩
  · replace ht : PredictMain.isStructural a.1 = false := by
      simpa using ht
    by_cases hB : pyStartsWith a.2 "B-" = true
    · rw [PredictMain.stepGroup_B _ _ _ ht hB]
      refine ⟨flushEntities_pres S st.entities st.currentEntity
        st.currentText h1 h2, ?_⟩
      intro ce hce
      obtain rfl : a.2 = ce := by injection hce
      exact ⟨a, haS, ht, hB, rfl⟩
    · replace hB : pyStartsWith a.2 "B-" = false := by
        simpa using hB
      by_cases hI : pyStartsWith a.2 "I-" = true ∧
          st.currentEntity.isSome = true ∧
          pyReplace a.2 "I-" "" =
            pyReplace (st.currentEntity.getD "") "B-" ""
      · have hstep : PredictMain.stepGroup st a.1 a.2 =
            { st with currentText :=
                st.currentText ++ [PredictMain.cleanToken a.1] } := by
          simp [PredictMain.stepGroup, ht, hB, hI]
        rw [hstep]
        exact ⟨h1, h2⟩
      · have hstep : PredictMain.stepGroup st a.1 a.2 =
            ⟨PredictMain.flushEntities st, none, []⟩ := by
          simp [PredictMain.stepGroup, ht, hB, hI]
        rw [hstep]
        refine ⟨flushEntities_pres S st.entities st.currentEntity
          st.currentText h1 h2, ?_⟩
        intro ce hce
        exact absurd hce (by simp)

theorem runGroup_pres (S : List (String × String)) :
    ∀ l : List (String × String), (∀ a ∈ l, a ∈ S) → ∀ st : GroupState,
      PredictMain.EntriesFromB S st.entities →
      PredictMain.AccFromB S st.currentEntity →
      PredictMain.EntriesFromB S
          ((l.foldl (fun st p => PredictMain.stepGroup st p.1 p.2) st).entities) ∧
        PredictMain.AccFromB S
          ((l.foldl (fun st p => PredictMain.stepGroup st p.1 p.2)
            st).currentEntity)
  | [], _, st, h1, h2 => ⟨h1, h2⟩
  | a :: tl, hsub, st, h1, h2 => by
    simp only [List.foldl_cons]
    obtain ⟨g1, g2⟩ :=
      stepGroup_pres S a (hsub a (List.mem_cons_self _ _)) st h1 h2
    exact runGroup_pres S tl (fun b hb => hsub b (List.mem_cons_of_mem _ hb))
      _ g1 g2

/-- C8: every key of the grouped entity mapping is the entity type of the
label of some non-structural pair of the input that starts with `"B-"` — an
entity is never opened by a bare `"I-"` or `"O"` label — and every value list
is non-empty. -/
theorem C8_entities_invariant (pairs : List (String × String)) (k : String)
    (vs : List String)
    (hmem : (k, vs) ∈ PredictMain.groupEntities pairs) :
    vs ≠ [] ∧ ∃ p ∈ pairs, PredictMain.isStructural p.1 = false ∧
      pyStartsWith p.2 "B-" = true ∧ PredictMain.entityType p.2 = k := by
  have hinit1 : PredictMain.EntriesFromB pairs
      PredictMain.initGroupState.entities := by
    intro q hq
    exact absurd hq (List.not_mem_nil q)
  have hinit2 : PredictMain.AccFromB pairs
      PredictMain.initGroupState.currentEntity := by
    intro ce hce
    exact absurd hce (by simp [PredictMain.initGroupState])
  obtain ⟨g1, g2⟩ :=
    runGroup_pres pairs pairs (fun a ha => ha) PredictMain.initGroupState
      hinit1 hinit2
  have hfin := flushEntities_pres pairs (PredictMain.runGroup pairs).entities
    (PredictMain.runGroup pairs).currentEntity
    (PredictMain.runGroup pairs).currentText g1 g2
  exact hfin (k, vs) hmem

/-- Witness for C8 at a one-pair sequence. -/
theorem C8_entities_invariant_witness :
    ("T", ["a"]) ∈ PredictMain.groupEntities [("Ġa", "B-T")] ∧
      (["a"] ≠ [] ∧ ∃ p ∈ [("Ġa", "B-T")],
        PredictMain.isStructural p.1 = false ∧
        pyStartsWith p.2 "B-" = true ∧ PredictMain.entityType p.2 = "T") :=
  ⟨by decide,
    C8_entities_invariant [("Ġa", "B-T")] "T" ["a"] (by decide)⟩

theorem formatLines_eq_blocks (es : List (String × List String)) :
    PredictMain.formatLines es =
      ((PredictMain.lookupE es "STORE").elim []
        (fun vs => ["# " ++ vs.headD ""])) ++
      ((PredictMain.lookupE es "DATE").elim []
        (fun vs => ["Date: " ++ vs.headD ""])) ++
      ((PredictMain.lookupE es "ITEM").elim []
        (fun vs => "\n## Items" :: vs.map (fun item => "- " ++ item))) ++
      ((PredictMain.lookupE es "PRICE").elim []
        (fun vs => "\n## Prices" :: vs.map (fun price => "- " ++ price))) ++
      ((PredictMain.lookupE es "TOTAL").elim []
        (fun vs => ["\n## Total: " ++ vs.headD ""])) := by
  cases hS : PredictMain.lookupE es "STORE" <;>
    cases hD : PredictMain.lookupE es "DATE" <;>
    cases hI : PredictMain.lookupE es "ITEM" <;>
    cases hP : PredictMain.lookupE es "PRICE" <;>
    cases hT : PredictMain.lookupE es "TOTAL" <;>
    simp [PredictMain.formatLines, hS, hD, hI, hP, hT]

theorem head_append_hash (w : String) :
    ("# " ++ w).data.head? = some '#' := by
  cases w
  rfl

theorem head_append_date (w : String) :
    ("Date: " ++ w).data.head? = some 'D' := by
  cases w
  rfl

theorem head_append_total (w : String) :
    ("\n## Total: " ++ w).data.head? = some '\n' := by
  cases w
  rfl

theorem head_append_dash (w : String) :
    ("- " ++ w).data.head? = some '-' := by
  cases w
  rfl

theorem formatLines_mem_head (es : List (String × List String)) (x : String)
    (hx : x ∈ PredictMain.formatLines es) :
    x.data.head? = some '#' ∨ x.data.head? = some 'D' ∨
      x.data.head? = some '\n' ∨ x.data.head? = some '-' := by
  rw [formatLines_eq_blocks] at hx
  simp only [List.mem_append] at hx
  rcases hx with ((((hx | hx) | hx) | hx) | hx)
  · cases hS : PredictMain.lookupE es "STORE" with
    | none => rw [hS] at hx; simp at hx
    | some vs =>
      rw [hS] at hx
      simp only [Option.elim, List.mem_singleton] at hx
      subst hx
      exact Or.inl (head_append_hash _)
  · cases hD : PredictMain.lookupE es "DATE" with
    | none => rw [hD] at hx; simp at hx
    | some vs =>
      rw [hD] at hx
      simp only [Option.elim, List.mem_singleton] at hx
      subst hx
      exact Or.inr (Or.inl (head_append_date _))
  · cases hI : PredictMain.lookupE es "ITEM" with
    | none => rw [hI] at hx; simp at hx
    | some vs =>
      rw [hI] at hx
      simp only [Option.elim, List.mem_cons, List.mem_map] at hx
      rcases hx with hx | ⟨item, -, hx⟩
      · subst hx
        exact Or.inr (Or.inr (Or.inl rfl))
      · rw [← hx]
        exact Or.inr (Or.inr (Or.inr (head_append_dash _)))
  · cases hP : PredictMain.lookupE es "PRICE" with
    | none => rw [hP] at hx; simp at hx
    | some vs =>
      rw [hP] at hx
      simp only [Option.elim, List.mem_cons, List.mem_map] at hx
      rcases hx with hx | ⟨price, -, hx⟩
      · subst hx
        exact Or.inr (Or.inr (Or.inl rfl))
      · rw [← hx]
        exact Or.inr (Or.inr (Or.inr (head_append_dash _)))
  · cases hT : PredictMain.lookupE es "TOTAL" with
    | none => rw [hT] at hx; simp at hx
    | some vs =>
      rw [hT] at hx
      simp only [Option.elim, List.mem_singleton] at hx
      subst hx
      exact Or.inr (Or.inr (Or.inl (head_append_total _)))

theorem pyJoin_newline_head (x : String) (xs : List String) :
    ∃ t, (pyJoin "\n" (x :: xs)).data = x.data ++ t := by
  cases xs with
  | nil =>
    refine ⟨[], ?_⟩
    cases x
    simp [pyJoin, joinL]
  | cons y ys =>
    refine ⟨'\n' :: joinL ['\n'] ((y :: ys).map String.data), ?_⟩
    cases x
    simp [pyJoin, joinL]

theorem head_append_of_head (l t : List Char) (c : Char)
    (h : l.head? = some c) : (l ++ t).head? = some c := by
  cases l with
  | nil => simp at h
  | cons a m =>
    simp only [List.head?_cons, Option.some.injEq] at h
    subst h
    rfl

/-- C5 fails as stated: the formatter emits the fixed message whenever none
of the five recognized types is a key of the mapping, even when other entity
types were detected.  The mapping `{"X": ["v"]}` — produced by the grouping
pass, e.g. from the single pair `("v", "B-X")` — is non-empty, yet the
formatter emits "No structured entities detected.". -/
theorem C5_counterexample :
    PredictMain.formattedText [("X", ["v"])] = PredictMain.noEntitiesMsg ∧
      ([("X", ["v"])] : List (String × List String)) ≠ [] ∧
      PredictMain.groupEntities [("v", "B-X")] = [("X", ["v"])] :=
  ⟨by decide, by decide, by decide⟩

/-- C5 (amended): the formatter emits exactly the five optional sections —
first STORE value as a heading, first DATE value as a line, every ITEM value
bulleted, every PRICE value bulleted, first TOTAL value as a closing line,
each omitted when its type is absent — and it emits the fixed message
"No structured entities detected." if and only if none of the five
recognized types is present in the mapping (even when entities of other
types were detected). -/
theorem C5_amended_formatter (es : List (String × List String)) :
    PredictMain.formatLines es =
      ((PredictMain.lookupE es "STORE").elim []
        (fun vs => ["# " ++ vs.headD ""])) ++
      ((PredictMain.lookupE es "DATE").elim []
        (fun vs => ["Date: " ++ vs.headD ""])) ++
      ((PredictMain.lookupE es "ITEM").elim []
        (fun vs => "\n## Items" :: vs.map (fun item => "- " ++ item))) ++
      ((PredictMain.lookupE es "PRICE").elim []
        (fun vs => "\n## Prices" :: vs.map (fun price => "- " ++ price))) ++
      ((PredictMain.lookupE es "TOTAL").elim []
        (fun vs => ["\n## Total: " ++ vs.headD ""])) ∧
    (PredictMain.formattedText es = PredictMain.noEntitiesMsg ↔
      PredictMain.lookupE es "STORE" = none ∧
      PredictMain.lookupE es "DATE" = none ∧
      PredictMain.lookupE es "ITEM" = none ∧
      PredictMain.lookupE es "PRICE" = none ∧
      PredictMain.lookupE es "TOTAL" = none) := by
  refine ⟨formatLines_eq_blocks es, ?_, ?_⟩
  · intro hmsg
    by_cases hnil : PredictMain.formatLines es = []
    · have hb := hnil
      rw [formatLines_eq_blocks] at hb
      simp only [List.append_eq_nil] at hb
      obtain ⟨⟨⟨⟨b1, b2⟩, b3⟩, b4⟩, b5⟩ := hb
      refine ⟨?_, ?_, ?_, ?_, ?_⟩
      · cases hS : PredictMain.lookupE es "STORE" with
        | none => rfl
        | some vs => rw [hS] at b1; simp at b1
      · cases hD : PredictMain.lookupE es "DATE" with
        | none => rfl
        | some vs => rw [hD] at b2; simp at b2
      · cases hI : PredictMain.lookupE es "ITEM" with
        | none => rfl
        | some vs => rw [hI] at b3; simp at b3
      · cases hP : PredictMain.lookupE es "PRICE" with
        | none => rfl
        | some vs => rw [hP] at b4; simp at b4
      · cases hT : PredictMain.lookupE es "TOTAL" with
        | none => rfl
        | some vs => rw [hT] at b5; simp at b5
    · exfalso
      cases hfl : PredictMain.formatLines es with
      | nil => exact hnil hfl
      | cons x xs =>
        have hx : x ∈ PredictMain.formatLines es := by
          rw [hfl]
          exact List.mem_cons_self _ _
        have hhead := formatLines_mem_head es x hx
        unfold PredictMain.formattedText at hmsg
        rw [if_neg hnil, hfl] at hmsg
        obtain ⟨t, ht⟩ := pyJoin_newline_head x xs
        have hdata := congrArg String.data hmsg
        rw [ht] at hdata
        have hN : (x.data ++ t).head? = some 'N' := by
          rw [hdata]
          rfl
        rcases hhead with h | h | h | h <;>
          rw [head_append_of_head x.data t _ h] at hN <;>
          exact absurd hN (by decide)
  · intro ⟨h1, h2, h3, h4, h5⟩
    have hb : PredictMain.formatLines es = [] := by
      rw [formatLines_eq_blocks]
      simp [h1, h2, h3, h4, h5]
    simp [PredictMain.formattedText, hb]

theorem estimateBox_bounds (W H cw lh wpl i : Nat) (word : String)
    (hW : 1 ≤ W) (hH : 1 ≤ H) :
    ∃ a b c d, Client.estimateBox W H cw lh wpl i word = [a, b, c, d] ∧
      a < c ∧ c ≤ W ∧ b < d ∧ d ≤ H := by
  refine ⟨_, _, _, _, rfl, ?_, ?_, ?_, ?_⟩ <;> omega

/-- C9: `extract_words_and_boxes` returns lists of equal length (both empty
when the text has no non-whitespace run), and every returned box
`[x0, y0, x1, y1]` satisfies `0 ≤ x0 < x1 ≤ image_width` and
`0 ≤ y0 < y1 ≤ image_height` (the lower bounds hold in `Nat`); the
`max ... 1` guards keep both divisors positive throughout. -/
theorem C9_extract_shape_bounds (text : String) (W H : Nat)
    (hW : 1 ≤ W) (hH : 1 ≤ H) :
    (Client.extract_words_and_boxes text W H).1.length =
      (Client.extract_words_and_boxes text W H).2.length ∧
    (Client.findallWords text = [] →
      Client.extract_words_and_boxes text W H = ([], [])) ∧
    ∀ box ∈ (Client.extract_words_and_boxes text W H).2,
      ∃ x0 y0 x1 y1, box = [x0, y0, x1, y1] ∧
        x0 < x1 ∧ x1 ≤ W ∧ y0 < y1 ∧ y1 ≤ H := by
  unfold Client.extract_words_and_boxes
  by_cases hw : (Client.findallWords text).isEmpty = true
  · rw [if_pos hw]
    refine ⟨rfl, fun _ => rfl, ?_⟩
    intro box hbox
    exact absurd hbox (List.not_mem_nil box)
  · rw [if_neg hw]
    refine ⟨by simp, ?_, ?_⟩
    · intro h0
      exact absurd (by simp [h0]) hw
    · intro box hbox
      simp only [List.mem_map] at hbox
      obtain ⟨p, hp, heq⟩ := hbox
      obtain ⟨a, b, c, d, hbox2, h1, h2, h3, h4⟩ :=
        estimateBox_bounds W H
          (W / max ((Client.findallWords text).map String.length
            |>.foldl max 0) 1)
          (H / max (((Client.findallWords text).length +
            (max 1 (Nat.sqrt (Client.findallWords text).length)) - 1) /
            (max 1 (Nat.sqrt (Client.findallWords text).length))) 1)
          (max 1 (Nat.sqrt (Client.findallWords text).length)) p.1 p.2 hW hH
      exact ⟨a, b, c, d, by rw [← heq, hbox2], h1, h2, h3, h4⟩

/-- Witness for C9 at a concrete text and image size. -/
theorem C9_extract_shape_bounds_witness :
    1 ≤ 10 ∧ 1 ≤ 8 ∧
      ((Client.extract_words_and_boxes "ab c" 10 8).1.length =
        (Client.extract_words_and_boxes "ab c" 10 8).2.length ∧
      (Client.findallWords "ab c" = [] →
        Client.extract_words_and_boxes "ab c" 10 8 = ([], [])) ∧
      ∀ box ∈ (Client.extract_words_and_boxes "ab c" 10 8).2,
        ∃ x0 y0 x1 y1, box = [x0, y0, x1, y1] ∧
          x0 < x1 ∧ x1 ≤ 10 ∧ y0 < y1 ∧ y1 ≤ 8) :=
  ⟨by decide, by decide,
    C9_extract_shape_bounds "ab c" 10 8 (by decide) (by decide)⟩
